import Mathlib

/-!
Shallow embedding of the conversational core of the customer-support chatbot
(`main.py`): the persistent user memory, the conversation manager with its
name extractor, and the completion client `send_message` cycle.  Python
strings are modelled as Lean `String` (lists of characters); the network and
the on-disk memory file are modelled as explicit values threaded through the
state.  All definitions are executable.
-/

namespace ChatbotSpec

/-- Message roles, as used in the transcript dictionaries of `main.py`. -/
inductive Role where
  | system
  | user
  | assistant
deriving DecidableEq

/-- One transcript entry: a dictionary with a role and a content string. -/
structure Message where
  role : Role
  content : String
deriving DecidableEq

/-- The persistent memory record: the keys `user_name` and `last_updated`
that `UserMemory` reads and writes (`main.py`, `set_user_name`). -/
structure MemoryRecord where
  user_name : Option String
  last_updated : Option String
deriving DecidableEq

/-- The empty record that `_load_memory` falls back to. -/
def emptyMemory : MemoryRecord := { user_name := none, last_updated := none }

/-- Characters Python's `str.strip()` removes with no argument:
space, tab, newline, carriage return, vertical tab, form feed. -/
def pyIsSpace (c : Char) : Bool :=
  c == ' ' || c == '\t' || c == '\n' || c == '\x0d' || c == '\x0b' || c == '\x0c'

/-- Python `str.strip()`: drop leading and trailing whitespace. -/
def pyStrip (s : String) : String :=
  String.mk (((s.data.dropWhile pyIsSpace).reverse.dropWhile pyIsSpace).reverse)

/-- Python `str.lower()`, restricted to the ASCII case mapping, applied
character by character. -/
def pyLower (s : String) : String := String.mk (s.data.map Char.toLower)

/-- Index of the first occurrence of `pat` in a character list, counting from
`i`; `none` when absent.  Models `pattern in lower_msg` together with
`lower_msg.index(pattern)`. -/
def idxOfAux (pat : List Char) : List Char → Nat → Option Nat
  | [], i => if pat.isPrefixOf ([] : List Char) then some i else none
  | c :: t, i => if pat.isPrefixOf (c :: t) then some i else idxOfAux pat t (i + 1)

/-- First occurrence of `pat` in `s`, as a character index. -/
def idxOf (pat s : String) : Option Nat := idxOfAux pat.data s.data 0

/-- The first whitespace-separated word of a character list, i.e.
`text.split()[0]` guarded by `if words:` in `_extract_user_name`. -/
def firstWord (cs : List Char) : Option (List Char) :=
  let rest := cs.dropWhile pyIsSpace
  if rest.isEmpty then none else some (rest.takeWhile (fun c => !(pyIsSpace c)))

/-- The punctuation set of `strip('.,!?')` in `_extract_user_name`. -/
def isStrippedPunct (c : Char) : Bool :=
  c == '.' || c == ',' || c == '!' || c == '?'

/-- Python `str.strip('.,!?')`: removes those characters from both ends. -/
def pyStripChars (cs : List Char) : List Char :=
  ((cs.dropWhile isStrippedPunct).reverse.dropWhile isStrippedPunct).reverse

/-- Python `str.capitalize()`: first character upper-cased, every remaining
character lower-cased (ASCII case mapping). -/
def pyCapitalize (cs : List Char) : List Char :=
  match cs with
  | [] => []
  | c :: t => c.toUpper :: t.map Char.toLower

/-- The introduction-phrase list of `_extract_user_name`, in source order. -/
def patterns : List String :=
  ["my name is ", "i'm ", "i am ", "call me ", "this is "]

/-- The candidate token for one pattern: if the pattern occurs in the
lowercased message, the first word of the original message after the
occurrence (`message[start:].split()` with `start = index + len(pattern)`). -/
def candidate_after (message pat : String) : Option (List Char) :=
  match idxOf pat (pyLower message) with
  | none => none
  | some i => firstWord (message.data.drop (i + pat.length))

/-- Validation and normalization of a candidate token, as in the loop body:
`name = words[0].strip('.,!?').capitalize()`, accepted when
`len(name) > 1 and name.isalpha()`. -/
def accept_token (w : List Char) : Option String :=
  let name := String.mk (pyCapitalize (pyStripChars w))
  if name.data.length > 1 && name.data.all Char.isAlpha then some name else none

/-- One iteration of the pattern loop of `_extract_user_name`: the accepted
name for this pattern, or `none` when the pattern is absent, has no word
after it, or its candidate fails validation. -/
def accept_pattern (message pat : String) : Option String :=
  match candidate_after message pat with
  | none => none
  | some w => accept_token w

/-- The pattern loop: iterations run in list order and stop at the first
acceptance (the `break`); a rejected candidate moves on to the next
pattern. -/
def extract_go (message : String) : List String → Option String
  | [] => none
  | p :: ps =>
    match accept_pattern message p with
    | some n => some n
    | none => extract_go message ps

/-- `ConversationManager._extract_user_name`, as the name it stores (if any). -/
def extract_user_name (message : String) : Option String :=
  extract_go message patterns

/-- `UserMemory.get_user_name`. -/
def get_user_name (m : MemoryRecord) : Option String := m.user_name

/-- `UserMemory.set_user_name`: store the name and stamp `last_updated` with
the current wall-clock time, passed in as `ts`.  The synchronous save to the
memory file is modelled where the record sits inside a `ChatState`. -/
def set_user_name (name ts : String) (m : MemoryRecord) : MemoryRecord :=
  { m with user_name := some name, last_updated := some ts }

/-- `UserMemory.get_memory_summary`: the one-line fact summary.  The Python
guard `if self.memory.get('user_name'):` is string truthiness, so a missing
name and an empty-string name both yield the empty summary. -/
def get_memory_summary (m : MemoryRecord) : String :=
  match m.user_name with
  | some n => if n = "" then "" else "The user's name is " ++ n ++ "."
  | none => ""

/-- The fixed base prompt of `ConversationManager._default_system_prompt`. -/
def base_prompt : String :=
  "You are Alexa, a helpful and professional customer support assistant. \n        Your role is to:\n        - Answer customer questions clearly and concisely\n        - Be polite, patient, and empathetic\n        - Provide accurate information\n        - Remember and use the user's name when appropriate\n        - Maintain a friendly and professional tone\n        \n        IMPORTANT: \n        - Your name is Alexa\n        - When asked what model you are, say you are \"Alexa, powered by GPT-4o Mini\"\n        - If the user tells you their name, acknowledge it warmly and remember it\n        - Always use the user's name naturally in conversation when you know it"

/-- `ConversationManager._default_system_prompt`: the base prompt, plus the
remembered-information block when the memory summary is non-empty. -/
def default_system_prompt (m : MemoryRecord) : String :=
  let memory_info := get_memory_summary m
  if memory_info = "" then base_prompt
  else base_prompt ++ "\n\nREMEMBERED INFORMATION:\n" ++ memory_info

/-- The mutable state of one `OpenAIChatbot`: the transcript and cached
prompt of its `ConversationManager`, the in-memory record of its
`UserMemory`, and the contents of the memory file on disk.  The disk is
`none` when the file is missing, `some none` when it exists but does not
parse as a record, and `some (some r)` when it parses as `r`. -/
structure ChatState where
  messages : List Message
  system_prompt : String
  memory : MemoryRecord
  memory_file : Option (Option MemoryRecord)
deriving DecidableEq

/-- `UserMemory._load_memory`: a missing file and contents that fail to
parse both fall back to the empty record; the function is total, so loading
never raises. -/
def load_memory (disk : Option (Option MemoryRecord)) : MemoryRecord :=
  match disk with
  | some (some r) => r
  | some none => emptyMemory
  | none => emptyMemory

/-- `OpenAIChatbot.__init__`: load the memory from disk and build the
conversation with the default system prompt derived from it. -/
def init_chatbot (disk : Option (Option MemoryRecord)) : ChatState :=
  let mem := load_memory disk
  let p := default_system_prompt mem
  { messages := [Message.mk Role.system p]
    system_prompt := p
    memory := mem
    memory_file := disk }

/-- `ConversationManager.add_user_message`: append the user message, then run
the name extractor; on an accepted name, `set_user_name` updates the record
and `_save_memory` immediately rewrites the memory file. -/
def add_user_message (content ts : String) (st : ChatState) : ChatState :=
  match extract_user_name content with
  | some n =>
    let mem := set_user_name n ts st.memory
    { st with
      messages := st.messages ++ [Message.mk Role.user content]
      memory := mem
      memory_file := some (some mem) }
  | none => { st with messages := st.messages ++ [Message.mk Role.user content] }

/-- `ConversationManager.add_assistant_message`. -/
def add_assistant_message (content : String) (st : ChatState) : ChatState :=
  { st with messages := st.messages ++ [Message.mk Role.assistant content] }

/-- `ConversationManager.reset`: recompute the system prompt from the current
memory and truncate the transcript to that single system message. -/
def reset (st : ChatState) : ChatState :=
  let p := default_system_prompt st.memory
  { st with system_prompt := p, messages := [Message.mk Role.system p] }

/-- JSON values, as far as the reply parsing of `send_message` inspects
them.  Leaves are strings: the claims never exercise numeric or null
replies, and the navigation code treats every non-string, non-array,
non-object value alike. -/
inductive JValue where
  | str (s : String)
  | arr (elems : List JValue)
  | obj (fields : List (String × JValue))

/-- Result of one Python subscript: the value, a caught `KeyError` or
`IndexError`, or an uncaught `TypeError`. -/
inductive Lookup where
  | found (v : JValue)
  | keyIndexError
  | typeError

/-- Python `v['k']` for a string key: a dict lookup (`KeyError` when the key
is absent), a `TypeError` on a list or a string. -/
def getKey (v : JValue) (k : String) : Lookup :=
  match v with
  | .obj fs =>
    match fs.lookup k with
    | some x => .found x
    | none => .keyIndexError
  | _ => .typeError

/-- Python `v[i]` for a non-negative integer: list indexing (`IndexError`
out of range), one-character slice of a string, `KeyError` on a dict whose
keys are strings. -/
def getIdx (v : JValue) (i : Nat) : Lookup :=
  match v with
  | .arr xs =>
    match xs.get? i with
    | some x => .found x
    | none => .keyIndexError
  | .str s =>
    match s.data.get? i with
    | some c => .found (.str (String.mk [c]))
    | none => .keyIndexError
  | .obj _ => .keyIndexError

/-- The reply navigation `response_data['choices'][0]['message']['content']`
of `send_message`, with Python's exception behavior at each step. -/
def extract_reply (body : JValue) : Lookup :=
  match getKey body "choices" with
  | .found c =>
    match getIdx c 0 with
    | .found m =>
      match getKey m "message" with
      | .found mm => getKey mm "content"
      | e => e
    | e => e
  | e => e

/-- Rendering of the navigated reply value into the transcript.  Python
appends the raw parsed value; transcript contents are strings in this
embedding, so non-string values - which no claim exercises - are rendered
by a fixed placeholder. -/
def jvalue_text : JValue → String
  | .str s => s
  | .arr _ => "<non-string reply>"
  | .obj _ => "<non-string reply>"

/-- The environment's answer to one HTTP POST against the completion
endpoint: a transport timeout, a non-2xx status, a network-level failure
(which also covers a 2xx body that is not valid JSON, since
`response.json()` raises a `RequestException` subclass), or a 2xx reply
with a parsed JSON body. -/
inductive ApiOutcome where
  | timeout
  | http_error (status : Nat)
  | network_error
  | success (body : JValue)

/-- `OpenAIChatbot._make_api_request`: every failure branch prints and
returns `None`; a 2xx reply returns its parsed body. -/
def make_api_request (outcome : ApiOutcome) : Option JValue :=
  match outcome with
  | .success body => some body
  | _ => none

/-- What `send_message` does: return a string, return `None`, or let an
uncaught exception propagate to the caller. -/
inductive SendResult where
  | returned (s : String)
  | no_reply
  | raised
deriving DecidableEq

/-- `OpenAIChatbot.send_message`, as a function of the current state, the
user message, the wall-clock time `ts` and the environment's `outcome`.
Returns the call's result, the state after the call, and whether
`_make_api_request` was reached.  The `response_data is None` branch pops
the just-appended user message; the `except (KeyError, IndexError)` branch
returns `None` without popping; a `TypeError` during navigation propagates,
also without popping. -/
def send_message (st : ChatState) (user_message ts : String) (outcome : ApiOutcome) :
    SendResult × ChatState × Bool :=
  if (pyStrip user_message).isEmpty then
    (.returned "Please enter a valid message.", st, false)
  else
    let st1 := add_user_message user_message ts st
    match make_api_request outcome with
    | none => (.no_reply, { st1 with messages := st1.messages.dropLast }, true)
    | some body =>
      match extract_reply body with
      | .found v => (.returned (jvalue_text v), add_assistant_message (jvalue_text v) st1, true)
      | .keyIndexError => (.no_reply, st1, true)
      | .typeError => (.raised, st1, true)

/-- The public mutating operations on a conversation state: the two appends
and the reset of `ConversationManager`, and a full `send_message` call with
an arbitrary environment outcome. -/
inductive Op where
  | user_msg (content ts : String)
  | assistant_msg (content : String)
  | reset_conv
  | send (input ts : String) (outcome : ApiOutcome)

/-- Apply one operation to the state. -/
def apply_op (st : ChatState) : Op → ChatState
  | .user_msg c ts => add_user_message c ts st
  | .assistant_msg c => add_assistant_message c st
  | .reset_conv => reset st
  | .send i ts o => (send_message st i ts o).2.1

/-- Apply a sequence of operations from left to right. -/
def run_ops (st : ChatState) : List Op → ChatState
  | [] => st
  | op :: ops => run_ops (apply_op st op) ops

/-- A conversation state whose transcript starts with a system message. -/
def starts_with_system (st : ChatState) : Prop :=
  ∃ c rest, st.messages = Message.mk Role.system c :: rest

/-- One send of the C3 scenario: the user input, the wall-clock time, and
the JSON body of the 2xx reply. -/
structure SendSpec where
  input : String
  ts : String
  body : JValue

/-- A send that completes a turn: the input survives the emptiness check
and the reply body navigates to a content value. -/
def send_ok (s : SendSpec) : Prop :=
  (pyStrip s.input).isEmpty = false ∧ ∃ v, extract_reply s.body = .found v

/-- Run a sequence of sends with 2xx outcomes, left to right. -/
def run_sends (st : ChatState) : List SendSpec → ChatState
  | [] => st
  | s :: rest => run_sends (send_message st s.input s.ts (.success s.body)).2.1 rest

/-- The reply text a 2xx body yields (unused default for bodies that do not
navigate). -/
def reply_of (body : JValue) : String :=
  match extract_reply body with
  | .found v => jvalue_text v
  | _ => ""

/-- The two transcript entries of one completed turn. -/
def turn_msgs (s : SendSpec) : List Message :=
  [Message.mk Role.user s.input, Message.mk Role.assistant (reply_of s.body)]

/-- The transcript entries of a sequence of completed turns, in order. -/
def turns_of : List SendSpec → List Message
  | [] => []
  | s :: rest => turn_msgs s ++ turns_of rest

/-- Modelled from claim C4's words: strip only trailing punctuation from the
token (where the source's `strip('.,!?')` also strips leading ones). -/
def strip_trailing (cs : List Char) : List Char :=
  (cs.reverse.dropWhile isStrippedPunct).reverse

/-- Modelled from claim C4's words: capitalize the first letter, leaving the
remaining characters as they are (where the source's `capitalize()` also
lower-cases them). -/
def capitalize_first (cs : List Char) : List Char :=
  match cs with
  | [] => []
  | c :: t => c.toUpper :: t

/-- Modelled from claim C4's words, as stated: strip trailing punctuation,
accept when the length exceeds 1 and every character is alphabetic, store
with the first letter capitalized. -/
def claimed_token_rule_c4 (w : List Char) : Option String :=
  let t := strip_trailing w
  if t.length > 1 && t.all Char.isAlpha then some (String.mk (capitalize_first t)) else none

/-- Claim C4's token rule applied at one pattern's candidate. -/
def claimed_accept_pattern_c4 (message pat : String) : Option String :=
  match candidate_after message pat with
  | none => none
  | some w => claimed_token_rule_c4 w

/-- The extractor claim C4 describes: the source's scanning order with the
claim's token rule. -/
def claimed_extract_go_c4 (message : String) : List String → Option String
  | [] => none
  | p :: ps =>
    match claimed_accept_pattern_c4 message p with
    | some n => some n
    | none => claimed_extract_go_c4 message ps

/-- The extractor claim C4 describes, over the fixed pattern list. -/
def claimed_extract_c4 (message : String) : Option String :=
  claimed_extract_go_c4 message patterns

/-- Modelled from amended claim C4's words: strip leading and trailing
punctuation, upper-case the first character and lower-case the rest, and
accept the result only if its length exceeds 1 and every character is
alphabetic. -/
def amended_token_rule_c4 (w : List Char) : Option String :=
  let name := String.mk (pyCapitalize (pyStripChars w))
  if name.data.length > 1 && name.data.all Char.isAlpha then some name else none

/-- Amended claim C4's token rule applied at one pattern's candidate. -/
def amended_accept_pattern_c4 (message pat : String) : Option String :=
  match candidate_after message pat with
  | none => none
  | some w => amended_token_rule_c4 w

/-- The extractor the amended claim C4 describes. -/
def amended_extract_go_c4 (message : String) : List String → Option String
  | [] => none
  | p :: ps =>
    match amended_accept_pattern_c4 message p with
    | some n => some n
    | none => amended_extract_go_c4 message ps

/-- The extractor the amended claim C4 describes, over the fixed list. -/
def amended_extract_c4 (message : String) : Option String :=
  amended_extract_go_c4 message patterns

/-- The introduction phrases present anywhere in the lowercased message, in
priority order. -/
def present_patterns (message : String) : List String :=
  patterns.filter (fun p => (idxOf p (pyLower message)).isSome)

/-- The first phrase of the priority list that occurs anywhere in the
lowercased message. -/
def first_present_pattern (message : String) : Option String :=
  patterns.find? (fun p => (idxOf p (pyLower message)).isSome)

/-- Modelled from claim C5's words, as stated: the name the extractor yields
is determined by the first phrase of the priority list that occurs anywhere
in the text, via the token following that phrase's earliest occurrence. -/
def claimed_c5_result (message : String) : Option String :=
  match first_present_pattern message with
  | none => none
  | some p =>
    match candidate_after message p with
    | none => none
    | some w => accept_token w

/-- The first phrase of the priority list that occurs in the lowercased
message and whose following token passes validation. -/
def first_accepting_pattern (message : String) : Option String :=
  patterns.find? (fun p => (accept_pattern message p).isSome)

/-- Modelled from amended claim C5's words: the name is determined by the
first phrase in priority order that occurs and whose candidate token is
accepted. -/
def amended_c5_result (message : String) : Option String :=
  match first_accepting_pattern message with
  | none => none
  | some p => accept_pattern message p

/-- A fresh chatbot whose memory file is missing: the construction state of
a first-ever session. -/
def fresh_chatbot : ChatState := init_chatbot none

/-- A conversation state with a remembered name, used to instantiate the
reset and rollback theorems. -/
def carlos_state : ChatState :=
  { messages := []
    system_prompt := ""
    memory := { user_name := some "Carlos", last_updated := none }
    memory_file := none }

theorem add_user_message_messages (c ts : String) (st : ChatState) :
    (add_user_message c ts st).messages = st.messages ++ [Message.mk Role.user c] := by
  cases h : extract_user_name c <;> simp [add_user_message, h]

theorem sws_of_append (st st' : ChatState) (l : List Message)
    (h : starts_with_system st) (e : st'.messages = st.messages ++ l) :
    starts_with_system st' := by
  obtain ⟨c, rest, hm⟩ := h
  exact ⟨c, rest ++ l, by rw [e, hm]; rfl⟩

theorem send_success_state_messages (st : ChatState) (i ts : String) (body : JValue)
    (hb : (pyStrip i).isEmpty = false) (v : JValue) (hr : extract_reply body = .found v) :
    (send_message st i ts (.success body)).2.1.messages
      = st.messages ++ [Message.mk Role.user i, Message.mk Role.assistant (jvalue_text v)] := by
  simp [send_message, hb, make_api_request, hr, add_assistant_message, add_user_message_messages]

theorem send_none_state_messages (st : ChatState) (i ts : String) (o : ApiOutcome)
    (hb : (pyStrip i).isEmpty = false) (ho : make_api_request o = none) :
    (send_message st i ts o).2.1.messages = st.messages := by
  simp [send_message, hb, ho, add_user_message_messages]

theorem apply_op_preserves_sws (st : ChatState) (op : Op) (h : starts_with_system st) :
    starts_with_system (apply_op st op) := by
  cases op with
  | user_msg c ts => exact sws_of_append st _ _ h (add_user_message_messages c ts st)
  | assistant_msg c => exact sws_of_append st _ _ h rfl
  | reset_conv => exact ⟨default_system_prompt st.memory, [], rfl⟩
  | send i ts o =>
    show starts_with_system (send_message st i ts o).2.1
    cases hb : (pyStrip i).isEmpty with
    | true =>
      have e : (send_message st i ts o).2.1 = st := by simp [send_message, hb]
      rw [e]
      exact h
    | false =>
      cases o with
      | timeout => exact sws_of_append st _ [] h (by rw [List.append_nil]; exact send_none_state_messages st i ts _ hb rfl)
      | http_error s => exact sws_of_append st _ [] h (by rw [List.append_nil]; exact send_none_state_messages st i ts _ hb rfl)
      | network_error => exact sws_of_append st _ [] h (by rw [List.append_nil]; exact send_none_state_messages st i ts _ hb rfl)
      | success body =>
        cases hr : extract_reply body with
        | found v => exact sws_of_append st _ _ h (send_success_state_messages st i ts body hb v hr)
        | keyIndexError =>
          exact sws_of_append st _ [Message.mk Role.user i] h
            (by simp [send_message, hb, make_api_request, hr, add_user_message_messages])
        | typeError =>
          exact sws_of_append st _ [Message.mk Role.user i] h
            (by simp [send_message, hb, make_api_request, hr, add_user_message_messages])

theorem run_ops_preserves_sws (ops : List Op) :
    ∀ st : ChatState, starts_with_system st → starts_with_system (run_ops st ops) := by
  induction ops with
  | nil => exact fun _ h => h
  | cons op ops ih => exact fun st h => ih _ (apply_op_preserves_sws st op h)

/-- Claim C2: in every state reachable from construction by any sequence of
the public operations (addUserMessage, addAssistantMessage, reset, and send
with any outcome including its rollback), the transcript is non-empty and
its first element has role `system`. -/
theorem c2_system_head_invariant (disk : Option (Option MemoryRecord)) (ops : List Op) :
    (run_ops (init_chatbot disk) ops).messages ≠ []
    ∧ starts_with_system (run_ops (init_chatbot disk) ops) := by
  have h0 : starts_with_system (init_chatbot disk) :=
    ⟨default_system_prompt (load_memory disk), [], rfl⟩
  have h := run_ops_preserves_sws ops _ h0
  refine ⟨?_, h⟩
  obtain ⟨c, rest, hm⟩ := h
  simp [hm]

theorem run_sends_messages (sends : List SendSpec) :
    ∀ st : ChatState, (∀ s ∈ sends, send_ok s) →
      (run_sends st sends).messages = st.messages ++ turns_of sends := by
  induction sends with
  | nil => intro st _; simp [run_sends, turns_of]
  | cons s rest ih =>
    intro st h
    obtain ⟨h1, v, h2⟩ := h s (List.mem_cons_self s rest)
    have hstep := send_success_state_messages st s.input s.ts s.body h1 v h2
    have hrepl : reply_of s.body = jvalue_text v := by simp [reply_of, h2]
    rw [run_sends, ih _ (fun x hx => h x (List.mem_cons_of_mem s hx)), hstep, turns_of,
      turn_msgs, hrepl, List.append_assoc]

theorem turns_of_length (sends : List SendSpec) :
    (turns_of sends).length = 2 * sends.length := by
  induction sends with
  | nil => rfl
  | cons s rest ih => simp [turns_of, turn_msgs, ih]; omega

/-- Claim C3: from a freshly constructed conversation, a sequence of n
successful sends (and nothing else) leaves the transcript as the system
message followed by the n user/assistant pairs in order, so its length is
1 + 2n. -/
theorem c3_successful_sends_shape (disk : Option (Option MemoryRecord))
    (sends : List SendSpec) (h : ∀ s ∈ sends, send_ok s) :
    (run_sends (init_chatbot disk) sends).messages
      = Message.mk Role.system (default_system_prompt (load_memory disk)) :: turns_of sends
    ∧ (run_sends (init_chatbot disk) sends).messages.length = 1 + 2 * sends.length := by
  have hm := run_sends_messages sends (init_chatbot disk) h
  have hinit : (init_chatbot disk).messages
      = [Message.mk Role.system (default_system_prompt (load_memory disk))] := rfl
  rw [hm, hinit]
  refine ⟨rfl, ?_⟩
  simp [turns_of_length]
  omega

/-- Witness for C3 at one concrete successful send from a fresh chatbot. -/
theorem c3_witness :
    (∀ s ∈ [SendSpec.mk "hello" "t0"
        (JValue.obj [("choices", JValue.arr [JValue.obj [("message",
          JValue.obj [("content", JValue.str "Hi there")])]])])], send_ok s)
    ∧ (run_sends (init_chatbot none) [SendSpec.mk "hello" "t0"
        (JValue.obj [("choices", JValue.arr [JValue.obj [("message",
          JValue.obj [("content", JValue.str "Hi there")])]])])]).messages
      = Message.mk Role.system (default_system_prompt (load_memory none)) ::
          turns_of [SendSpec.mk "hello" "t0"
            (JValue.obj [("choices", JValue.arr [JValue.obj [("message",
              JValue.obj [("content", JValue.str "Hi there")])]])])]
    ∧ (run_sends (init_chatbot none) [SendSpec.mk "hello" "t0"
        (JValue.obj [("choices", JValue.arr [JValue.obj [("message",
          JValue.obj [("content", JValue.str "Hi there")])]])])]).messages.length = 1 + 2 * 1 := by
  have h : ∀ s ∈ [SendSpec.mk "hello" "t0"
      (JValue.obj [("choices", JValue.arr [JValue.obj [("message",
        JValue.obj [("content", JValue.str "Hi there")])]])])], send_ok s := by
    intro s hs
    rw [List.mem_singleton] at hs
    subst hs
    exact ⟨rfl, JValue.str "Hi there", rfl⟩
  have hc := c3_successful_sends_shape none _ h
  exact ⟨h, hc.1, hc.2⟩

/-- Counterexample to claim C4 as stated: on "my name is .BOB" the source
strips the leading dot as well (Python `strip` removes the characters from
both ends) and lower-cases the tail, storing "Bob", while the claim's
trailing-only strip leaves ".BOB", which fails the alphabetic check and
stores nothing. -/
theorem c4_counterexample :
    extract_user_name "my name is .BOB" = some "Bob"
    ∧ claimed_extract_c4 "my name is .BOB" = none
    ∧ extract_user_name "my name is .BOB" ≠ claimed_extract_c4 "my name is .BOB" :=
  ⟨rfl, rfl, by decide⟩

theorem extract_go_eq_amended_c4 (message : String) (ps : List String) :
    extract_go message ps = amended_extract_go_c4 message ps := by
  induction ps with
  | nil => rfl
  | cons p ps ih =>
    have hap : amended_accept_pattern_c4 message p = accept_pattern message p := rfl
    cases h : accept_pattern message p with
    | some n => simp [extract_go, amended_extract_go_c4, hap, h]
    | none => simp [extract_go, amended_extract_go_c4, hap, h, ih]

/-- Claim C4 as amended: for every message the extractor behaves as
described with the strip applying to both ends of the token and the
capitalization lower-casing the characters after the first; the claim's
three concrete examples hold as stated. -/
theorem c4_amended_extraction :
    (∀ message, extract_user_name message = amended_extract_c4 message)
    ∧ extract_user_name "Hi, my name is Carlos" = some "Carlos"
    ∧ extract_user_name "im bob!" = none
    ∧ extract_user_name "I am 7" = none :=
  ⟨fun message => extract_go_eq_amended_c4 message patterns, rfl, rfl, rfl⟩

/-- Counterexample to claim C5 as stated: in "i am 2, call me Ana" two
phrases occur; the highest-priority one present is "i am ", whose token "2,"
is rejected, and the claim therefore predicts no extraction; the source,
however, continues scanning and stores "Ana" from "call me ". -/
theorem c5_counterexample :
    2 ≤ (present_patterns "i am 2, call me Ana").length
    ∧ extract_user_name "i am 2, call me Ana" = some "Ana"
    ∧ claimed_c5_result "i am 2, call me Ana" = none
    ∧ extract_user_name "i am 2, call me Ana" ≠ claimed_c5_result "i am 2, call me Ana" :=
  ⟨by decide, rfl, rfl, by decide⟩

theorem extract_go_eq_first_accepting (message : String) (ps : List String) :
    extract_go message ps =
      match ps.find? (fun p => (accept_pattern message p).isSome) with
      | none => none
      | some p => accept_pattern message p := by
  induction ps with
  | nil => rfl
  | cons p ps ih =>
    cases h : accept_pattern message p with
    | some n => simp [extract_go, List.find?_cons, h]
    | none => simp [extract_go, List.find?_cons, h, ih]

/-- Claim C5 as amended: for every message in which more than one
introduction phrase occurs, the phrase that determines the stored name is
the first phrase of the priority list that occurs anywhere in the lowercased
text and whose candidate token passes validation - still not the phrase
whose occurrence is leftmost - and the result is that phrase's accepted
candidate. -/
theorem c5_priority_scan (message : String)
    (_h : 2 ≤ (present_patterns message).length) :
    extract_user_name message = amended_c5_result message :=
  extract_go_eq_first_accepting message patterns

/-- Witness for C5 on a message containing two phrases. -/
theorem c5_witness :
    2 ≤ (present_patterns "call me Al, this is Tim").length
    ∧ extract_user_name "call me Al, this is Tim" = amended_c5_result "call me Al, this is Tim" :=
  ⟨by decide, c5_priority_scan "call me Al, this is Tim" (by decide)⟩

/-- Counterexample to claim C6 as stated: in "call me 5, this is Omar" the
first matching phrase in priority order is "call me ", its candidate "5,"
is rejected, and the claim therefore calls the message a no-op; the source
continues scanning and stores "Omar" from "this is ". -/
theorem c6_counterexample :
    first_present_pattern "call me 5, this is Omar" = some "call me "
    ∧ candidate_after "call me 5, this is Omar" "call me " = some ['5', ',']
    ∧ accept_token ['5', ','] = none
    ∧ extract_user_name "call me 5, this is Omar" = some "Omar"
    ∧ extract_user_name "call me 5, this is Omar" ≠ none :=
  ⟨rfl, rfl, rfl, rfl, by decide⟩

theorem extract_go_eq_none_iff (message : String) (ps : List String) :
    extract_go message ps = none ↔ ∀ p ∈ ps, accept_pattern message p = none := by
  induction ps with
  | nil => simp [extract_go]
  | cons p ps ih =>
    cases h : accept_pattern message p with
    | some n => simp [extract_go, h]
    | none => simp [extract_go, h, ih]

/-- Claim C6 as amended: at most one name is stored per message (the scan
stops at the first acceptance, performing a single `set_user_name` with that
one name), a rejected candidate lets the scan continue with the remaining
phrases, and processing is a silent no-op on the memory store exactly when
every phrase's candidate is rejected or absent. -/
theorem c6_rejection_continues (st : ChatState) (ts message : String) :
    (extract_user_name message = none ↔ ∀ p ∈ patterns, accept_pattern message p = none)
    ∧ (extract_user_name message = none →
        (add_user_message message ts st).memory = st.memory
        ∧ (add_user_message message ts st).memory_file = st.memory_file)
    ∧ (∀ n, extract_user_name message = some n →
        (add_user_message message ts st).memory = set_user_name n ts st.memory
        ∧ (add_user_message message ts st).memory_file
            = some (some (set_user_name n ts st.memory))) := by
  refine ⟨extract_go_eq_none_iff message patterns, fun h => ?_, fun n h => ?_⟩
  · simp [add_user_message, h]
  · simp [add_user_message, h]

/-- Witness for C6 on a message whose only matching phrase is rejected. -/
theorem c6_witness :
    extract_user_name "i am 7 today" = none
    ∧ (add_user_message "i am 7 today" "t0" fresh_chatbot).memory = fresh_chatbot.memory
    ∧ (add_user_message "i am 7 today" "t0" fresh_chatbot).memory_file
        = fresh_chatbot.memory_file :=
  ⟨rfl, (c6_rejection_continues fresh_chatbot "t0" "i am 7 today").2.1 rfl⟩

theorem string_data_length_append (a b : String) :
    (a ++ b).data.length = a.data.length + b.data.length := by
  rw [String.data_append, List.length_append]

theorem summary_ne_empty (n : String) : ("The user's name is " ++ n ++ ".") ≠ "" := by
  intro he
  have h1 : ("The user's name is " ++ n ++ ".").data.length = 0 := by rw [he]; rfl
  rw [string_data_length_append, string_data_length_append] at h1
  have e1 : 0 < ("The user's name is " : String).data.length := by decide
  omega

theorem prompt_contains_name (m : MemoryRecord) (n : String) (h : m.user_name = some n) :
    ∃ a b, default_system_prompt m = a ++ n ++ b := by
  by_cases hn : n = ""
  · subst hn
    have hs : get_memory_summary m = "" := by simp [get_memory_summary, h]
    refine ⟨base_prompt, "", ?_⟩
    simp [default_system_prompt, hs]
  · have hs : get_memory_summary m = "The user's name is " ++ n ++ "." := by
      simp [get_memory_summary, h, hn]
    refine ⟨base_prompt ++ "\n\nREMEMBERED INFORMATION:\n" ++ "The user's name is ", ".", ?_⟩
    simp only [default_system_prompt]
    rw [hs, if_neg (summary_ne_empty n)]
    simp only [String.append_assoc]

/-- Claim C7: for every conversation and memory state, `reset` yields a
single-message transcript whose element is a system message carrying the
prompt recomputed from the memory at reset time; when a name is remembered,
that prompt contains the name. -/
theorem c7_reset_recomputes (st : ChatState) :
    (reset st).messages = [Message.mk Role.system (default_system_prompt st.memory)]
    ∧ ∀ n, st.memory.user_name = some n →
        ∃ a b, default_system_prompt st.memory = a ++ n ++ b :=
  ⟨rfl, fun n h => prompt_contains_name st.memory n h⟩

/-- Witness for C7 at a state remembering the name "Carlos". -/
theorem c7_witness :
    (reset carlos_state).messages
      = [Message.mk Role.system (default_system_prompt carlos_state.memory)]
    ∧ ∃ a b, default_system_prompt carlos_state.memory = a ++ "Carlos" ++ b :=
  ⟨(c7_reset_recomputes carlos_state).1, (c7_reset_recomputes carlos_state).2 "Carlos" rfl⟩

/-- Claim C8: loading the memory store is total (it cannot raise), and a
missing memory file as well as contents that fail to parse yield the empty
record, so a chatbot constructed over such a disk starts with no stored
name. -/
theorem c8_load_degrades (disk : Option (Option MemoryRecord))
    (h : disk = none ∨ disk = some none) :
    load_memory disk = emptyMemory
    ∧ get_user_name (load_memory disk) = none
    ∧ (init_chatbot disk).memory = emptyMemory := by
  rcases h with h | h <;> subst h <;> exact ⟨rfl, rfl, rfl⟩

/-- Witness for C8 at an existing but unparsable memory file. -/
theorem c8_witness :
    ((some none : Option (Option MemoryRecord)) = none
      ∨ (some none : Option (Option MemoryRecord)) = some none)
    ∧ load_memory (some none) = emptyMemory
    ∧ get_user_name (load_memory (some none)) = none
    ∧ (init_chatbot (some none)).memory = emptyMemory :=
  ⟨Or.inr rfl, c8_load_degrades (some none) (Or.inr rfl)⟩

/-- Claim C9: an input that strips to the empty string makes `send_message`
return the prompt-for-input string without reaching `_make_api_request`,
leaving the whole state - transcript, memory record and memory file -
unchanged, whatever the environment would have answered. -/
theorem c9_blank_input_rejected_locally (st : ChatState) (input ts : String)
    (outcome : ApiOutcome) (h : (pyStrip input).isEmpty = true) :
    send_message st input ts outcome = (.returned "Please enter a valid message.", st, false) := by
  simp [send_message, h]

/-- Witness for C9 at a whitespace-only input. -/
theorem c9_witness :
    (pyStrip "  \t ").isEmpty = true
    ∧ send_message fresh_chatbot "  \t " "t0" ApiOutcome.timeout
        = (.returned "Please enter a valid message.", fresh_chatbot, false) :=
  ⟨rfl, c9_blank_input_rejected_locally fresh_chatbot "  \t " "t0" ApiOutcome.timeout rfl⟩

/-- Claim C10: when a message yields an accepted name, the name is written
into the memory record and the memory file already by `add_user_message`,
before the request is made; when the request then fails with a `None`
response and the user message is rolled back, the transcript is restored
but the stored name survives in the record and in the file. -/
theorem c10_name_survives_rollback (st : ChatState) (message ts n : String)
    (outcome : ApiOutcome)
    (h1 : (pyStrip message).isEmpty = false)
    (h2 : extract_user_name message = some n)
    (h3 : make_api_request outcome = none) :
    (add_user_message message ts st).memory = set_user_name n ts st.memory
    ∧ (add_user_message message ts st).memory_file
        = some (some (set_user_name n ts st.memory))
    ∧ (send_message st message ts outcome).1 = .no_reply
    ∧ (send_message st message ts outcome).2.1.messages = st.messages
    ∧ (send_message st message ts outcome).2.1.memory = set_user_name n ts st.memory
    ∧ (send_message st message ts outcome).2.1.memory_file
        = some (some (set_user_name n ts st.memory)) := by
  refine ⟨by simp [add_user_message, h2], by simp [add_user_message, h2], ?_, ?_, ?_, ?_⟩ <;>
    simp [send_message, h1, h3, add_user_message, h2]

/-- Witness for C10: a timeout right after "my name is Carlos". -/
theorem c10_witness :
    (pyStrip "my name is Carlos").isEmpty = false
    ∧ extract_user_name "my name is Carlos" = some "Carlos"
    ∧ make_api_request ApiOutcome.timeout = none
    ∧ ((add_user_message "my name is Carlos" "t1" fresh_chatbot).memory
          = set_user_name "Carlos" "t1" fresh_chatbot.memory
      ∧ (add_user_message "my name is Carlos" "t1" fresh_chatbot).memory_file
          = some (some (set_user_name "Carlos" "t1" fresh_chatbot.memory))
      ∧ (send_message fresh_chatbot "my name is Carlos" "t1" ApiOutcome.timeout).1 = .no_reply
      ∧ (send_message fresh_chatbot "my name is Carlos" "t1" ApiOutcome.timeout).2.1.messages
          = fresh_chatbot.messages
      ∧ (send_message fresh_chatbot "my name is Carlos" "t1" ApiOutcome.timeout).2.1.memory
          = set_user_name "Carlos" "t1" fresh_chatbot.memory
      ∧ (send_message fresh_chatbot "my name is Carlos" "t1" ApiOutcome.timeout).2.1.memory_file
          = some (some (set_user_name "Carlos" "t1" fresh_chatbot.memory))) :=
  ⟨rfl, rfl, rfl,
    c10_name_survives_rollback fresh_chatbot "my name is Carlos" "t1" "Carlos"
      ApiOutcome.timeout rfl rfl rfl⟩

/-- Claim C1 fails on the source: a 2xx reply whose JSON body lacks the
expected structure takes the `except (KeyError, IndexError)` branch of
`send_message`, which returns `None` without popping the just-appended user
message.  Evaluated at a fresh chatbot sent "hello" against the body `{}`,
the transcript after the call has gained a dangling user message, so it is
not equal to the transcript before the call. -/
theorem c1_malformed_reply_not_rolled_back :
    (send_message fresh_chatbot "hello" "t0" (ApiOutcome.success (JValue.obj []))).1
      = SendResult.no_reply
    ∧ (send_message fresh_chatbot "hello" "t0" (ApiOutcome.success (JValue.obj []))).2.1.messages
        = fresh_chatbot.messages ++ [Message.mk Role.user "hello"]
    ∧ (send_message fresh_chatbot "hello" "t0" (ApiOutcome.success (JValue.obj []))).2.1.messages
        ≠ fresh_chatbot.messages := by
  refine ⟨rfl, rfl, fun h => ?_⟩
  have e : (send_message fresh_chatbot "hello" "t0"
      (ApiOutcome.success (JValue.obj []))).2.1.messages
      = fresh_chatbot.messages ++ [Message.mk Role.user "hello"] := rfl
  rw [e] at h
  have hlen := congrArg List.length h
  simp only [List.length_append, List.length_cons, List.length_nil] at hlen
  omega

end ChatbotSpec
